import Mathlib

/-!
Verification of the car-diagnosis expert system (`index.py`).

The fact store is a Python dict mapping symptom names to booleans or
category strings; we model it as an association list of `String × Value`
with first-match lookup (`dict.get`).  A rule condition is a Python
callable that may raise; we model it as a function into
`Except String Bool`, a raised exception becoming `Except.error` with its
message.  `ExpertSystem.infer` loops over the rules, appending
`(rule, rule.diagnosis)` on a true condition and printing a warning line
on an exception; we model the printed warnings as a second output list.
-/

namespace AutoDiag

/-- A fact value: Python booleans or category strings. -/
inductive Value where
  | bool (b : Bool)
  | str (s : String)
deriving DecidableEq, Repr

/-- The fact store: a Python dict from symptom key to value, modelled as
an association list in insertion order. -/
abbrev FactStore := List (String × Value)

/-- Model of `f.get(k)` on a Python dict: `none` when the key is absent. -/
def dictGet (f : FactStore) (k : String) : Option Value :=
  List.lookup k f

/-- Model of `d[k] = v` on a Python dict: overwrite in place if the key exists,
else append at the end (dicts keep insertion order). -/
def dictSet (d : FactStore) (k : String) (v : Value) : FactStore :=
  if (List.lookup k d).isSome then
    List.map (fun p => if p.1 = k then (k, v) else p) d
  else
    d ++ [(k, v)]

/-- Model of `d.setdefault(k, v)`: insert only when the key is absent. -/
def dictSetdefault (d : FactStore) (k : String) (v : Value) : FactStore :=
  if (List.lookup k d).isSome then d else d ++ [(k, v)]

/-- Whether a key is present in the store. -/
def hasKey (d : FactStore) (k : String) : Bool :=
  (List.lookup k d).isSome

/-- A rule of `index.py`: name, condition (a callable on the fact store
that may raise), diagnosis and explanation text. -/
structure Rule where
  name : String
  check : FactStore → Except String Bool
  diagnosis : String
  explanation : String

/-- The condition evaluated to `true` without raising. -/
def checkTrue (r : Rule) (f : FactStore) : Bool :=
  match r.check f with
  | Except.ok b => b
  | Except.error _ => false

/-- The warning line printed by `infer` when a rule raises `e`. -/
def warnMsg (name e : String) : String :=
  "(Advertencia) Error en la regla \x27" ++ name ++ "\x27: " ++ e

/-- Model of `ExpertSystem.infer`: iterate the rules in order; on a true condition
append `(rule, rule.diagnosis)`; on an exception print a warning naming
the rule and continue.  Returns the matches and the warning lines, each
in rule order. -/
def infer : List Rule → FactStore → List (Rule × String) × List String
  | [], _ => ([], [])
  | r :: rs, facts =>
    let rest := infer rs facts
    match r.check facts with
    | Except.ok true => ((r, r.diagnosis) :: rest.1, rest.2)
    | Except.ok false => rest
    | Except.error e => (rest.1, warnMsg r.name e :: rest.2)

/-- Model of `build_rules`: the fixed ordered list of the five shipped rules.
Python `x is False` / `x is True` is identity with the boolean
singletons, `x == "negro"` is equality that is false across types;
`f.get` yields `None` on an absent key, which satisfies neither. -/
def build_rules : List Rule :=
  [ { name := "No arranca + tablero apagado",
      check := fun f => Except.ok
        (decide (dictGet f "arranca" = some (Value.bool false)) &&
         decide (dictGet f "tablero" = some (Value.bool false))),
      diagnosis := "batería descargada",
      explanation := "Si el auto no arranca y el tablero está apagado, suele ser batería descargada." },
    { name := "No arranca + tablero encendido",
      check := fun f => Except.ok
        (decide (dictGet f "arranca" = some (Value.bool false)) &&
         decide (dictGet f "tablero" = some (Value.bool true))),
      diagnosis := "fallo en el motor de arranque",
      explanation := "Si el tablero enciende pero el motor no gira, suele ser el motor de arranque o su circuito." },
    { name := "Se apaga al acelerar",
      check := fun f => Except.ok
        (decide (dictGet f "arranca" = some (Value.bool true)) &&
         decide (dictGet f "apaga_al_acelerar" = some (Value.bool true))),
      diagnosis := "problema en el suministro de combustible",
      explanation := "Apagarse al acelerar apunta a filtro tapado, bomba débil o inyección." },
    { name := "Humo negro",
      check := fun f => Except.ok
        (decide (dictGet f "humo" = some (Value.str "negro"))),
      diagnosis := "mezcla rica de combustible",
      explanation := "El humo negro indica exceso de combustible en la mezcla aire/combustible." },
    { name := "Humo blanco constante",
      check := fun f => Except.ok
        (decide (dictGet f "humo" = some (Value.str "blanco_constante"))),
      diagnosis := "falla en la junta de culata",
      explanation := "El humo blanco continuo puede ser refrigerante quemándose por daño en la junta de culata." } ]

/-- The fact-building part of `run_interactive` (lines 97-127): the four
yes/no answers and the chosen smoke-colour option determine the store.
When `arranca` is answered no, the dashboard question is asked; otherwise
the stalling question is asked and `tablero` is filled by `setdefault`.
The colour answer is lowercased and matched by string prefix exactly as
in the source. -/
def run_interactive_facts (arranca tablero apaga hay_humo : Bool)
    (color : String) : FactStore :=
  let facts : FactStore := []
  let facts := dictSet facts "arranca" (Value.bool arranca)
  let facts :=
    if !arranca then
      dictSet facts "tablero" (Value.bool tablero)
    else
      let facts := dictSet facts "apaga_al_acelerar" (Value.bool apaga)
      dictSetdefault facts "tablero" (Value.bool true)
  if hay_humo then
    if (color.toLower).startsWith "negro" then
      dictSet facts "humo" (Value.str "negro")
    else if (color.toLower).startsWith "blanco (constante)" then
      dictSet facts "humo" (Value.str "blanco_constante")
    else if (color.toLower).startsWith "blanco" then
      dictSet facts "humo" (Value.str "blanco")
    else
      dictSet facts "humo" (Value.str "ninguno")
  else
    dictSet facts "humo" (Value.str "ninguno")

/-- Model of the Python yes/no dict `.get(x, dflt)` used by `run_cli`:
"si" maps to true, "no" to false, anything else to the default. -/
def siNoGet (x : Option String) (dflt : Bool) : Bool :=
  match x with
  | some v => if v = "si" then true else if v = "no" then false else dflt
  | none => dflt

/-- The fact-building part of `run_cli` (lines 148-168): each argument is
the optional flag string (`--arranca`, `--tablero`, `--apaga_al_acelerar`
as "si"/"no", `--humo` as a category).  Defaults are applied exactly as
in the source, including the coherence override of `tablero` when the
flag was not given. -/
def run_cli_facts (arranca_arg tablero_arg apaga_arg humo_arg : Option String) :
    FactStore :=
  let arranca := siNoGet arranca_arg true
  let tablero := siNoGet tablero_arg true
  let apaga := siNoGet apaga_arg false
  let humo := match humo_arg with
    | some s => if s = "" then "ninguno" else s
    | none => "ninguno"
  let tablero := if arranca && tablero_arg = none then true else tablero
  let tablero := if !arranca && tablero_arg = none then false else tablero
  [("arranca", Value.bool arranca),
   ("tablero", Value.bool tablero),
   ("apaga_al_acelerar", Value.bool apaga),
   ("humo", Value.str humo)]

/-!
A second, state-explicit model of the engine for the frame and
idempotence claims.  In Python the condition receives the fact dict
itself and could mutate it; here a condition returns the (possibly
updated) store alongside its boolean, and `inferSt` threads the store
through the rules exactly as the mutable dict flows through the loop.
-/

/-- A rule whose condition may update the store it is given. -/
structure RuleSt where
  name : String
  check : FactStore → Except String (Bool × FactStore)
  diagnosis : String
  explanation : String

/-- State-explicit `infer`: threads the store through every condition. -/
def inferSt : List RuleSt → FactStore →
    List (RuleSt × String) × List String × FactStore
  | [], facts => ([], [], facts)
  | r :: rs, facts =>
    match r.check facts with
    | Except.ok (b, facts1) =>
      let rest := inferSt rs facts1
      (if b then (r, r.diagnosis) :: rest.1 else rest.1, rest.2.1, rest.2.2)
    | Except.error e =>
      let rest := inferSt rs facts
      (rest.1, warnMsg r.name e :: rest.2.1, rest.2.2)

/-- The shipped rules in the state-explicit model: each condition only
reads the dict via `get`, so it hands the store back unchanged. -/
def build_rules_st : List RuleSt :=
  [ { name := "No arranca + tablero apagado",
      check := fun f => Except.ok
        ((decide (dictGet f "arranca" = some (Value.bool false)) &&
          decide (dictGet f "tablero" = some (Value.bool false))), f),
      diagnosis := "batería descargada",
      explanation := "Si el auto no arranca y el tablero está apagado, suele ser batería descargada." },
    { name := "No arranca + tablero encendido",
      check := fun f => Except.ok
        ((decide (dictGet f "arranca" = some (Value.bool false)) &&
          decide (dictGet f "tablero" = some (Value.bool true))), f),
      diagnosis := "fallo en el motor de arranque",
      explanation := "Si el tablero enciende pero el motor no gira, suele ser el motor de arranque o su circuito." },
    { name := "Se apaga al acelerar",
      check := fun f => Except.ok
        ((decide (dictGet f "arranca" = some (Value.bool true)) &&
          decide (dictGet f "apaga_al_acelerar" = some (Value.bool true))), f),
      diagnosis := "problema en el suministro de combustible",
      explanation := "Apagarse al acelerar apunta a filtro tapado, bomba débil o inyección." },
    { name := "Humo negro",
      check := fun f => Except.ok
        ((decide (dictGet f "humo" = some (Value.str "negro"))), f),
      diagnosis := "mezcla rica de combustible",
      explanation := "El humo negro indica exceso de combustible en la mezcla aire/combustible." },
    { name := "Humo blanco constante",
      check := fun f => Except.ok
        ((decide (dictGet f "humo" = some (Value.str "blanco_constante"))), f),
      diagnosis := "falla en la junta de culata",
      explanation := "El humo blanco continuo puede ser refrigerante quemándose por daño en la junta de culata." } ]

/-- The warning that `infer` produces for one rule, if any. -/
def warnOf (r : Rule) (f : FactStore) : Option String :=
  match r.check f with
  | Except.error e => some (warnMsg r.name e)
  | Except.ok _ => none

/-! Helper lemmas about `infer`. -/

theorem infer_fst_eq (rules : List Rule) (facts : FactStore) :
    (infer rules facts).1
      = (rules.filter (fun r => checkTrue r facts)).map (fun r => (r, r.diagnosis)) := by
  induction rules with
  | nil => rfl
  | cons r rs ih =>
    cases h : r.check facts with
    | ok b => cases b <;> simp [infer, h, checkTrue, List.filter_cons, ih]
    | error e => simp [infer, h, checkTrue, List.filter_cons, ih]

theorem infer_snd_eq (rules : List Rule) (facts : FactStore) :
    (infer rules facts).2 = rules.filterMap (fun r => warnOf r facts) := by
  induction rules with
  | nil => rfl
  | cons r rs ih =>
    cases h : r.check facts with
    | ok b => cases b <;> simp [infer, h, warnOf, List.filterMap_cons, ih]
    | error e => simp [infer, h, warnOf, List.filterMap_cons, ih]

theorem name_mem_infer (rules : List Rule) (facts : FactStore) (n : String) :
    (∃ p ∈ (infer rules facts).1, p.1.name = n)
      ↔ ∃ r ∈ rules, checkTrue r facts = true ∧ r.name = n := by
  rw [infer_fst_eq]
  constructor
  · rintro ⟨p, hp, hn⟩
    rw [List.mem_map] at hp
    obtain ⟨r, hr, rfl⟩ := hp
    rw [List.mem_filter] at hr
    exact ⟨r, hr.1, hr.2, hn⟩
  · rintro ⟨r, hr, hc, hn⟩
    exact ⟨(r, r.diagnosis), List.mem_map_of_mem _ (List.mem_filter.2 ⟨hr, hc⟩), hn⟩

theorem lookup_append_single (d : FactStore) (k k2 : String) (v : Value) :
    List.lookup k2 (d ++ [(k, v)])
      = match List.lookup k2 d with
        | some w => some w
        | none => if k2 = k then some v else none := by
  induction d with
  | nil =>
    cases hb : (k2 == k) with
    | true =>
      have h : k2 = k := by simpa using hb
      simp [List.lookup_cons, hb, h]
    | false =>
      have h : ¬ k2 = k := by simpa using hb
      simp [List.lookup_cons, hb, h]
  | cons p d ih =>
    obtain ⟨a, b⟩ := p
    cases hb : (k2 == a) <;> simp [List.lookup_cons, hb, ih]

theorem lookup_map_overwrite (d : FactStore) (k k2 : String) (v : Value) :
    List.lookup k2 (d.map (fun p => if p.1 = k then (k, v) else p))
      = match List.lookup k2 d with
        | some w => if k2 = k then some v else some w
        | none => none := by
  induction d with
  | nil => rfl
  | cons p d ih =>
    obtain ⟨a, b⟩ := p
    by_cases hak : a = k
    · subst hak
      cases hb : (k2 == a) with
      | true =>
        have h : k2 = a := by simpa using hb
        simp [List.lookup_cons, hb, h]
      | false =>
        have h : ¬ k2 = a := by simpa using hb
        simp [List.lookup_cons, hb, h, ih]
    · cases hb : (k2 == a) with
      | true =>
        have h : k2 = a := by simpa using hb
        subst h
        simp [List.lookup_cons, hak]
      | false =>
        simp [List.lookup_cons, hak, hb, ih]

theorem hasKey_dictSet (d : FactStore) (k k2 : String) (v : Value) :
    hasKey (dictSet d k v) k2 = (k2 == k || hasKey d k2) := by
  unfold hasKey dictSet
  by_cases hk : (List.lookup k d).isSome
  · rw [if_pos hk, lookup_map_overwrite]
    by_cases h2 : k2 = k
    · subst h2
      simp [hk]
      cases hl : List.lookup k2 d <;> simp [hl] at hk ⊢
    · cases hl : List.lookup k2 d <;> simp [h2, hl]
  · rw [if_neg hk, lookup_append_single]
    by_cases h2 : k2 = k
    · subst h2
      cases hl : List.lookup k2 d <;> simp [hl] at hk ⊢
    · cases hl : List.lookup k2 d <;> simp [h2, hl]

theorem hasKey_dictSetdefault (d : FactStore) (k k2 : String) (v : Value) :
    hasKey (dictSetdefault d k v) k2 = (k2 == k || hasKey d k2) := by
  unfold hasKey dictSetdefault
  by_cases hk : (List.lookup k d).isSome
  · rw [if_pos hk]
    by_cases h2 : k2 = k
    · subst h2
      simp [hk]
    · simp [h2]
  · rw [if_neg hk, lookup_append_single]
    by_cases h2 : k2 = k
    · subst h2
      cases hl : List.lookup k2 d <;> simp [hl] at hk ⊢
    · cases hl : List.lookup k2 d <;> simp [h2, hl]

theorem mem_name_battery (facts : FactStore) :
    (∃ p ∈ (infer build_rules facts).1, p.1.name = "No arranca + tablero apagado")
      ↔ (dictGet facts "arranca" = some (Value.bool false)
         ∧ dictGet facts "tablero" = some (Value.bool false)) := by
  rw [name_mem_infer]
  simp [build_rules, checkTrue]

theorem mem_name_starter (facts : FactStore) :
    (∃ p ∈ (infer build_rules facts).1, p.1.name = "No arranca + tablero encendido")
      ↔ (dictGet facts "arranca" = some (Value.bool false)
         ∧ dictGet facts "tablero" = some (Value.bool true)) := by
  rw [name_mem_infer]
  simp [build_rules, checkTrue]

theorem mem_name_stall (facts : FactStore) :
    (∃ p ∈ (infer build_rules facts).1, p.1.name = "Se apaga al acelerar")
      ↔ (dictGet facts "arranca" = some (Value.bool true)
         ∧ dictGet facts "apaga_al_acelerar" = some (Value.bool true)) := by
  rw [name_mem_infer]
  simp [build_rules, checkTrue]

theorem mem_name_negro (facts : FactStore) :
    (∃ p ∈ (infer build_rules facts).1, p.1.name = "Humo negro")
      ↔ dictGet facts "humo" = some (Value.str "negro") := by
  rw [name_mem_infer]
  simp [build_rules, checkTrue]

theorem mem_name_blanco_constante (facts : FactStore) :
    (∃ p ∈ (infer build_rules facts).1, p.1.name = "Humo blanco constante")
      ↔ dictGet facts "humo" = some (Value.str "blanco_constante") := by
  rw [name_mem_infer]
  simp [build_rules, checkTrue]

theorem build_rules_no_warn (facts : FactStore) :
    (infer build_rules facts).2 = [] := by
  rw [infer_snd_eq]
  simp [build_rules, warnOf]

theorem build_rules_no_raise (facts : FactStore) :
    ∀ r ∈ build_rules, ∃ b, r.check facts = Except.ok b := by
  intro r hr
  simp only [build_rules, List.mem_cons, List.not_mem_nil, or_false] at hr
  rcases hr with rfl | rfl | rfl | rfl | rfl <;> exact ⟨_, rfl⟩

/-- Store-preservation of the shipped rule set in the state-explicit
model: every condition hands the store back unchanged, so one full
inference pass returns the store it was given. -/
theorem inferSt_build_rules_store (facts : FactStore) :
    (inferSt build_rules_st facts).2.2 = facts := rfl

/-- The no-match scenario of the spec: starts, dashboard on, no stall,
no smoke. -/
def facts_no_match : FactStore :=
  [("arranca", Value.bool true), ("tablero", Value.bool true),
   ("apaga_al_acelerar", Value.bool false), ("humo", Value.str "ninguno")]

/-- A fact store with no `humo` key at all. -/
def facts_sin_humo : FactStore :=
  [("arranca", Value.bool true), ("tablero", Value.bool true),
   ("apaga_al_acelerar", Value.bool false)]

/-- A fact store reporting plain white (non-constant) smoke. -/
def facts_humo_blanco : FactStore :=
  [("arranca", Value.bool true), ("tablero", Value.bool true),
   ("apaga_al_acelerar", Value.bool false), ("humo", Value.str "blanco")]

/-- The dead-battery scenario: no start, dashboard off. -/
def facts_battery : FactStore :=
  [("arranca", Value.bool false), ("tablero", Value.bool false),
   ("humo", Value.str "ninguno")]

/-- A rule whose condition always raises, for exercising fault
isolation. -/
def bad_rule : Rule :=
  { name := "Regla rota",
    check := fun _ => Except.error "boom",
    diagnosis := "n/a",
    explanation := "n/a" }

/-- C1: `infer` iterates the rules in their defined order and returns
exactly the subsequence of `(rule, rule.diagnosis)` pairs for the rules
whose condition evaluates to true on the store, in rule-set order with no
sorting and no deduplication; when the condition of no rule holds it returns
the empty sequence, not an error. -/
theorem infer_collects_matches_in_order (rules : List Rule) (facts : FactStore) :
    (infer rules facts).1
      = (rules.filter (fun r => checkTrue r facts)).map (fun r => (r, r.diagnosis))
    ∧ ((∀ r ∈ rules, checkTrue r facts = false) → (infer rules facts).1 = []) := by
  refine ⟨infer_fst_eq rules facts, fun h => ?_⟩
  have hnil : rules.filter (fun r => checkTrue r facts) = [] :=
    List.filter_eq_nil_iff.2 (fun r hr => by simp [h r hr])
  rw [infer_fst_eq, hnil, List.map_nil]

/-- Witness for C1 at the no-match scenario of the spec. -/
theorem infer_collects_matches_in_order_witness :
    (infer build_rules facts_no_match).1 = [] :=
  (infer_collects_matches_in_order build_rules facts_no_match).2 (by decide)

/-- C3: when the condition of one rule raises, `infer` neither aborts nor
propagates the exception: the warning naming the faulting rule is
recorded and the returned sequence still holds exactly the matches of all
non-faulting rules in order. -/
theorem infer_isolates_rule_faults (rules : List Rule) (facts : FactStore)
    (r : Rule) (e : String) (hmem : r ∈ rules)
    (hraise : r.check facts = Except.error e) :
    warnMsg r.name e ∈ (infer rules facts).2
    ∧ (infer rules facts).1
        = (rules.filter (fun s => checkTrue s facts)).map (fun s => (s, s.diagnosis)) := by
  refine ⟨?_, infer_fst_eq rules facts⟩
  rw [infer_snd_eq]
  exact List.mem_filterMap.2 ⟨r, hmem, by simp [warnOf, hraise]⟩

/-- Witness for C3: a raising rule prepended to the shipped set. -/
theorem infer_isolates_rule_faults_witness :
    warnMsg bad_rule.name "boom" ∈ (infer (bad_rule :: build_rules) facts_battery).2
    ∧ (infer (bad_rule :: build_rules) facts_battery).1
        = ((bad_rule :: build_rules).filter (fun s => checkTrue s facts_battery)).map
            (fun s => (s, s.diagnosis)) :=
  infer_isolates_rule_faults (bad_rule :: build_rules) facts_battery bad_rule "boom"
    (List.mem_cons_self _ _) rfl

/-- C4: a fact store with no `humo` key raises nothing (every shipped
condition returns normally, no warning is recorded) and matches neither
smoke rule. -/
theorem no_humo_no_smoke_match (facts : FactStore)
    (h : dictGet facts "humo" = none) :
    (∀ r ∈ build_rules, ∃ b, r.check facts = Except.ok b)
    ∧ (infer build_rules facts).2 = []
    ∧ ¬ (∃ p ∈ (infer build_rules facts).1, p.1.name = "Humo negro")
    ∧ ¬ (∃ p ∈ (infer build_rules facts).1, p.1.name = "Humo blanco constante") := by
  refine ⟨build_rules_no_raise facts, build_rules_no_warn facts, ?_, ?_⟩
  · rw [mem_name_negro, h]; simp
  · rw [mem_name_blanco_constante, h]; simp

/-- Witness for C4 at a concrete store missing `humo`. -/
theorem no_humo_no_smoke_match_witness :
    (∀ r ∈ build_rules, ∃ b, r.check facts_sin_humo = Except.ok b)
    ∧ (infer build_rules facts_sin_humo).2 = []
    ∧ ¬ (∃ p ∈ (infer build_rules facts_sin_humo).1, p.1.name = "Humo negro")
    ∧ ¬ (∃ p ∈ (infer build_rules facts_sin_humo).1, p.1.name = "Humo blanco constante") :=
  no_humo_no_smoke_match facts_sin_humo rfl

/-- C5: a fact store with `humo = "blanco"` matches neither smoke rule;
in particular the head-gasket rule does not fire. -/
theorem humo_blanco_no_smoke_match (facts : FactStore)
    (h : dictGet facts "humo" = some (Value.str "blanco")) :
    ¬ (∃ p ∈ (infer build_rules facts).1, p.1.name = "Humo negro")
    ∧ ¬ (∃ p ∈ (infer build_rules facts).1, p.1.name = "Humo blanco constante") := by
  constructor
  · rw [mem_name_negro, h]; simp
  · rw [mem_name_blanco_constante, h]; simp

/-- Witness for C5 at a concrete store with plain white smoke. -/
theorem humo_blanco_no_smoke_match_witness :
    ¬ (∃ p ∈ (infer build_rules facts_humo_blanco).1, p.1.name = "Humo negro")
    ∧ ¬ (∃ p ∈ (infer build_rules facts_humo_blanco).1, p.1.name = "Humo blanco constante") :=
  humo_blanco_no_smoke_match facts_humo_blanco rfl

/-- C7: inference never mutates the fact store: in the state-explicit
model the store after a full pass over the shipped rules equals the store
handed in, and every shipped condition is a pure read returning the store
unchanged. -/
theorem infer_preserves_facts (facts : FactStore) :
    (inferSt build_rules_st facts).2.2 = facts
    ∧ ∀ r ∈ build_rules_st, ∃ b, r.check facts = Except.ok (b, facts) := by
  refine ⟨inferSt_build_rules_store facts, ?_⟩
  intro r hr
  simp only [build_rules_st, List.mem_cons, List.not_mem_nil, or_false] at hr
  rcases hr with rfl | rfl | rfl | rfl | rfl <;> exact ⟨_, rfl⟩

/-- C8: inference is idempotent and deterministic: a second pass over the
store left by a first pass yields the same matches and the same warnings
as the first. -/
theorem infer_idempotent (facts : FactStore) :
    (inferSt build_rules_st ((inferSt build_rules_st facts).2.2)).1
      = (inferSt build_rules_st facts).1
    ∧ (inferSt build_rules_st ((inferSt build_rules_st facts).2.2)).2.1
      = (inferSt build_rules_st facts).2.1 := by
  rw [inferSt_build_rules_store]
  exact ⟨rfl, rfl⟩

/-- C10: the two no-start rules and the stalls rule are pairwise
exclusive: no result of `infer` over the shipped rules contains both a
no-start match and the stall match, nor both no-start matches. -/
theorem no_start_stall_exclusive (facts : FactStore) :
    ¬ ((∃ p ∈ (infer build_rules facts).1, p.1.name = "No arranca + tablero apagado")
       ∧ (∃ p ∈ (infer build_rules facts).1, p.1.name = "Se apaga al acelerar"))
    ∧ ¬ ((∃ p ∈ (infer build_rules facts).1, p.1.name = "No arranca + tablero encendido")
       ∧ (∃ p ∈ (infer build_rules facts).1, p.1.name = "Se apaga al acelerar"))
    ∧ ¬ ((∃ p ∈ (infer build_rules facts).1, p.1.name = "No arranca + tablero apagado")
       ∧ (∃ p ∈ (infer build_rules facts).1, p.1.name = "No arranca + tablero encendido")) := by
  refine ⟨?_, ?_, ?_⟩ <;> rintro ⟨h1, h2⟩
  · rw [mem_name_battery] at h1
    rw [mem_name_stall] at h2
    exact absurd (h1.1.symm.trans h2.1) (by decide)
  · rw [mem_name_starter] at h1
    rw [mem_name_stall] at h2
    exact absurd (h1.1.symm.trans h2.1) (by decide)
  · rw [mem_name_battery] at h1
    rw [mem_name_starter] at h2
    exact absurd (h1.2.symm.trans h2.2) (by decide)

theorem hasKey_nil (k : String) : hasKey [] k = false := rfl

/-- Whatever the smoke answers are, the interactive store is the
pre-smoke store with some value written under `humo`. -/
theorem smoke_branch (a t ap hh : Bool) (c : String) :
    ∃ v : Value, run_interactive_facts a t ap hh c
      = dictSet
          (if !a then
            dictSet (dictSet [] "arranca" (Value.bool a)) "tablero" (Value.bool t)
          else
            dictSetdefault
              (dictSet (dictSet [] "arranca" (Value.bool a))
                "apaga_al_acelerar" (Value.bool ap))
              "tablero" (Value.bool true))
          "humo" v := by
  cases hh with
  | false => exact ⟨Value.str "ninguno", rfl⟩
  | true =>
    by_cases h1 : (c.toLower).startsWith "negro" = true
    · exact ⟨Value.str "negro", by unfold run_interactive_facts; simp [h1]⟩
    · by_cases h2 : (c.toLower).startsWith "blanco (constante)" = true
      · exact ⟨Value.str "blanco_constante", by unfold run_interactive_facts; simp [h1, h2]⟩
      · by_cases h3 : (c.toLower).startsWith "blanco" = true
        · exact ⟨Value.str "blanco", by unfold run_interactive_facts; simp [h1, h2, h3]⟩
        · exact ⟨Value.str "ninguno", by unfold run_interactive_facts; simp [h1, h2, h3]⟩

/-- C2: `build_rules` returns the fixed ordered sequence of exactly five
rules with the names and diagnoses of the table, and each condition
holds exactly on the equalities of the table, read as strict value equality on the
looked-up key; an absent key (`none`) satisfies none of them. -/
theorem build_rules_fixed_table :
    build_rules.length = 5
    ∧ build_rules.map (fun r => (r.name, r.diagnosis))
        = [("No arranca + tablero apagado", "batería descargada"),
           ("No arranca + tablero encendido", "fallo en el motor de arranque"),
           ("Se apaga al acelerar", "problema en el suministro de combustible"),
           ("Humo negro", "mezcla rica de combustible"),
           ("Humo blanco constante", "falla en la junta de culata")]
    ∧ ∀ facts : FactStore,
      (checkTrue (build_rules.get ⟨0, by decide⟩) facts = true ↔
        (dictGet facts "arranca" = some (Value.bool false)
         ∧ dictGet facts "tablero" = some (Value.bool false)))
      ∧ (checkTrue (build_rules.get ⟨1, by decide⟩) facts = true ↔
        (dictGet facts "arranca" = some (Value.bool false)
         ∧ dictGet facts "tablero" = some (Value.bool true)))
      ∧ (checkTrue (build_rules.get ⟨2, by decide⟩) facts = true ↔
        (dictGet facts "arranca" = some (Value.bool true)
         ∧ dictGet facts "apaga_al_acelerar" = some (Value.bool true)))
      ∧ (checkTrue (build_rules.get ⟨3, by decide⟩) facts = true ↔
        dictGet facts "humo" = some (Value.str "negro"))
      ∧ (checkTrue (build_rules.get ⟨4, by decide⟩) facts = true ↔
        dictGet facts "humo" = some (Value.str "blanco_constante")) := by
  refine ⟨rfl, rfl, fun facts => ?_⟩
  refine ⟨?_, ?_, ?_, ?_, ?_⟩ <;> simp [build_rules, checkTrue, List.get]

/-- C6 counterexample: the interactive collaborator, answering that the
car does not start, hands the engine a store with no
`apaga_al_acelerar` key at all. -/
theorem run_interactive_omits_apaga :
    hasKey (run_interactive_facts false false false false "Negro")
      "apaga_al_acelerar" = false := by decide

/-- C6 (amended): the flag-based collaborator always supplies all four
keys; the interactive collaborator always supplies `arranca`, `tablero`
and `humo`, and supplies `apaga_al_acelerar` exactly when `arranca` was
answered yes. -/
theorem collaborator_key_coverage :
    (∀ (a t ap hh : Bool) (c : String),
      hasKey (run_interactive_facts a t ap hh c) "arranca" = true
      ∧ hasKey (run_interactive_facts a t ap hh c) "tablero" = true
      ∧ hasKey (run_interactive_facts a t ap hh c) "humo" = true
      ∧ hasKey (run_interactive_facts a t ap hh c) "apaga_al_acelerar" = a)
    ∧ ∀ (aa ta pa ha : Option String),
      hasKey (run_cli_facts aa ta pa ha) "arranca" = true
      ∧ hasKey (run_cli_facts aa ta pa ha) "tablero" = true
      ∧ hasKey (run_cli_facts aa ta pa ha) "apaga_al_acelerar" = true
      ∧ hasKey (run_cli_facts aa ta pa ha) "humo" = true := by
  constructor
  · intro a t ap hh c
    obtain ⟨v, hv⟩ := smoke_branch a t ap hh c
    rw [hv]
    cases a <;> simp [hasKey_dictSet, hasKey_dictSetdefault, hasKey_nil]
  · intro aa ta pa ha
    simp [run_cli_facts, hasKey, List.lookup_cons]

/-- C9: the flag-based collaborator defaults `arranca` to true,
`apaga_al_acelerar` to false and `humo` to "ninguno" when the flag is
absent; with the `tablero` flag unsupplied, `tablero` is set to false
when `arranca` is false and to true when `arranca` is true. -/
theorem run_cli_defaults :
    (∀ t ap h, dictGet (run_cli_facts none t ap h) "arranca" = some (Value.bool true))
    ∧ (∀ a t h, dictGet (run_cli_facts a t none h) "apaga_al_acelerar"
        = some (Value.bool false))
    ∧ (∀ a t ap, dictGet (run_cli_facts a t ap none) "humo" = some (Value.str "ninguno"))
    ∧ (∀ a ap h, dictGet (run_cli_facts a none ap h) "arranca" = some (Value.bool false)
        → dictGet (run_cli_facts a none ap h) "tablero" = some (Value.bool false))
    ∧ (∀ a ap h, dictGet (run_cli_facts a none ap h) "arranca" = some (Value.bool true)
        → dictGet (run_cli_facts a none ap h) "tablero" = some (Value.bool true)) := by
  refine ⟨?_, ?_, ?_, ?_, ?_⟩
  · intro t ap h
    simp [run_cli_facts, dictGet, List.lookup_cons, siNoGet]
  · intro a t h
    simp [run_cli_facts, dictGet, List.lookup_cons, siNoGet]
  · intro a t ap
    simp [run_cli_facts, dictGet, List.lookup_cons, siNoGet]
  · intro a ap h hfalse
    simp [run_cli_facts, dictGet, List.lookup_cons] at hfalse ⊢
    simp [hfalse]
  · intro a ap h htrue
    simp [run_cli_facts, dictGet, List.lookup_cons] at htrue ⊢
    simp [htrue]

/-- Witness for C9 at concrete flag combinations. -/
theorem run_cli_defaults_witness :
    dictGet (run_cli_facts none none none none) "arranca" = some (Value.bool true)
    ∧ dictGet (run_cli_facts (some "no") none none none) "tablero" = some (Value.bool false)
    ∧ dictGet (run_cli_facts none none none none) "tablero" = some (Value.bool true) :=
  ⟨run_cli_defaults.1 none none none,
   run_cli_defaults.2.2.2.1 (some "no") none none (by decide),
   run_cli_defaults.2.2.2.2 none none none (by decide)⟩

end AutoDiag
